import Mathlib

/-!
Verification of the sampling and domain-validation core of the
mitx-grading-library repository, as described by its specification.

Part 1 embeds `mitxgraders/helpers/specify_domain.py` (the domain
validation wrapper).  Numeric values are modelled by `ℚ` so that
validation outcomes are decidable; the validators never perform any
arithmetic on the numbers, so this loses nothing.

Part 2 embeds `graders/sampling.py` (the sampling-set hierarchy) over `ℝ`
and `ℂ`, with the process-wide random source made explicit: each
`gen_sample` receives its random draws as arguments, constrained by the
contract of the runtime primitive that produced them
(`np.random.random_sample()` yields a real in `[0,1)`;
`np.random.randint(low, high)` yields an integer in `[low, high)`).
-/

namespace MitxGraders

/-! ### MathArray (modelled) -/

/-- Modelled from the spec: `MathArray` lives in
`mitxgraders/helpers/math_array.py`, which is not under `src/`.  The spec
describes it as an external numeric-array value type exposing `.shape`
(ordered sequence of dimension sizes) and a human-readable
`.description`.  We carry the shape and the flat list of entries. -/
structure MathArray where
  shape : List ℕ
  data : List ℚ
  deriving DecidableEq

/-- Modelled from the spec: the Shape Descriptor maps a shape to
`"scalar"`, `"vector of length N"`, or
`"matrix of shape (rows: R, cols: C)"`.  The spec does not describe
higher-rank arrays; none of the claims exercises them. -/
def MathArray.desc_of_shape (shape : List ℕ) : String :=
  match shape with
  | [] => "scalar"
  | [n] => s!"vector of length {n}"
  | [r, c] => s!"matrix of shape (rows: {r}, cols: {c})"
  | _ => "tensor"

/-- `MathArray.description` — the array's own human-readable description. -/
def MathArray.description (a : MathArray) : String :=
  MathArray.desc_of_shape a.shape

/-- Modelled from the spec: the predicate "is this array
degenerate-scalar" used by the scalar validator, accepting degenerate
one-component arrays. -/
def is_scalar_matharray (a : MathArray) : Bool :=
  a.shape.prod == 1

/-- `MathArray.item()` — the single entry of a degenerate array. -/
def MathArray.item (a : MathArray) : ℚ :=
  a.data.headD 0

/-! ### Python values seen by the wrapper -/

/-- A runtime value passed to a domain-wrapped function: a plain number,
a `MathArray`, or some other object (carrying its class name, which is
all `get_description` uses of it). -/
inductive PyObj where
  | num (x : ℚ)
  | matharray (a : MathArray)
  | other (className : String)
  deriving DecidableEq

/-- `get_description(obj)` from `specify_domain.py`: numbers are
`"scalar"`, `MathArray`s return their own description, other objects
their class name. -/
def get_description (obj : PyObj) : String :=
  match obj with
  | .num _ => "scalar"
  | .matharray a => a.description
  | .other className => className

/-- `low_ordinal(n)` from `specify_domain.py`: `1st`, `2nd`, `3rd` for
1–3, otherwise `nth`. -/
def low_ordinal (n : ℕ) : String :=
  if n = 1 then "1st"
  else if n = 2 then "2nd"
  else if n = 3 then "3rd"
  else s!"{n}th"

/-- `number_validator(obj)` from `specify_domain.py`: a plain number is
returned as is; a degenerate-scalar `MathArray` is unwrapped via
`.item()`; anything else raises `Invalid` with a descriptive message. -/
def number_validator (obj : PyObj) : Except String PyObj :=
  match obj with
  | .num x => .ok (.num x)
  | .matharray a =>
      if is_scalar_matharray a then .ok (.num a.item)
      else
        let received := get_description obj
        .error s!"received a {received}, expected a scalar"
  | _ =>
      let received := get_description obj
      .error s!"received a {received}, expected a scalar"

/-- `make_shape_validator(shape)` from `specify_domain.py`: accepts
exactly the `MathArray`s whose shape equals `shape`, otherwise raises
`Invalid` with a descriptive message. -/
def make_shape_validator (shape : List ℕ) (obj : PyObj) : Except String PyObj :=
  match obj with
  | .matharray a =>
      if a.shape = shape then .ok (.matharray a)
      else
        let received := get_description obj
        let expected := MathArray.desc_of_shape shape
        .error s!"received a {received}, expected a {expected}"
  | _ =>
      let received := get_description obj
      let expected := MathArray.desc_of_shape shape
      .error s!"received a {received}, expected a {expected}"

/-- `has_shape(shape)` from `specify_domain.py`: the normalized shape
`(1,)` gets the scalar validator, every other shape the exact-shape
validator. -/
def has_shape (shape : List ℕ) (obj : PyObj) : Except String PyObj :=
  if shape = [1] then number_validator obj
  else make_shape_validator shape obj

/-! ### The wrapper's call protocol (`_func` in `make_decorator`) -/

/-- The learner-facing `DomainError`. -/
structure DomainError where
  message : String
  deriving DecidableEq

/-- Decidable equality of validation outcomes. -/
instance exceptDecEq {ε α : Type} [DecidableEq ε] [DecidableEq α] :
    DecidableEq (Except ε α) := fun a b =>
  match a, b with
  | .ok x, .ok y => decidable_of_iff (x = y) (by simp)
  | .error x, .error y => decidable_of_iff (x = y) (by simp)
  | .ok _, .error _ => isFalse (by simp)
  | .error _, .ok _ => isFalse (by simp)

/-- The arity-mismatch message built at the top of `_func`. -/
def arity_message (func_name : String) (expected received : ℕ) : String :=
  s!"There was an error evaluating function {func_name}(...): expected {expected} inputs, but received {received}."

/-- The per-argument outcomes: `errors` in `_func`, one entry per
argument, `none` for "ok" and `some msg` for a validation failure. -/
def validation_errors (shapes : List (List ℕ)) (args : List PyObj) :
    List (Option String) :=
  (shapes.zip args).map fun p =>
    match has_shape p.1 p.2 with
    | .ok _ => none
    | .error e => some e

/-- The line `_func` emits for argument `index` (0-based), given its
declared shape and its validation outcome. -/
def report_line (index : ℕ) (shape : List ℕ) (error : Option String) : String :=
  let ordinal := low_ordinal (index + 1)
  match error with
  | some msg => s!"{ordinal} input has an error: " ++ msg
  | none =>
      let expected := if shape = [1] then "scalar" else MathArray.desc_of_shape shape
      s!"{ordinal} input is ok: received a {expected} as expected"

/-- The header of the aggregated report, naming the function. -/
def header_line (func_name : String) : String :=
  s!"There was an error evaluating function {func_name}(...)"

/-- The per-argument lines of the aggregated report, built by the loop
`for index, (shape, error) in enumerate(zip(shapes, errors))`. -/
def report_arg_lines (shapes : List (List ℕ))
    (errors : List (Option String)) : List String :=
  (shapes.zip errors).enum.map fun p => report_line p.1 p.2.1 p.2.2

/-- The aggregated multi-line report built by `_func`: a header naming
the function, then one line per argument, joined by `"\n\t"`. -/
def report_message (func_name : String) (shapes : List (List ℕ))
    (errors : List (Option String)) : String :=
  String.intercalate "\n\t" (header_line func_name :: report_arg_lines shapes errors)

/-- `_func(*args)` from `make_decorator` in `specify_domain.py`: the
wrapped call.  First the arity check (short-circuiting), then every
argument is validated, then either the wrapped function is called with
the ORIGINAL arguments, or the aggregated report is raised. -/
def call_wrapped (shapes : List (List ℕ)) (func_name : String)
    (func : List PyObj → PyObj) (args : List PyObj) :
    Except DomainError PyObj :=
  if shapes.length ≠ args.length then
    .error ⟨arity_message func_name shapes.length args.length⟩
  else
    let errors := validation_errors shapes args
    if errors.all (· = none) then
      .ok (func args)
    else
      .error ⟨report_message func_name shapes errors⟩

/-- A concrete wrapped function used in closed examples: returns its
first argument (so its output reveals the value it received). -/
def first_arg (args : List PyObj) : PyObj :=
  args.headD (.num 0)

end MitxGraders

namespace Graders

/-! ### Sampling sets (`graders/sampling.py`)

The process-wide random source is made explicit: each `gen_sample`
receives the draws it consumes as extra arguments, constrained by the
contract of the numpy primitive that produced them. -/

/-- `RealInterval`: an interval of real numbers from which to sample. -/
structure RealInterval where
  start : ℝ
  stop : ℝ

/-- `RealInterval.__init__`: after schema validation, swap `start` and
`stop` if they are the wrong way around. -/
noncomputable def RealInterval.init (a b : ℝ) : RealInterval :=
  if a > b then ⟨b, a⟩ else ⟨a, b⟩

/-- `RealInterval.gen_sample()`: `start + (stop - start) * u` where `u`
is the draw from `np.random.random_sample()` (a real in `[0,1)`). -/
noncomputable def RealInterval.gen_sample (ri : RealInterval) (u : ℝ) : ℝ :=
  ri.start + (ri.stop - ri.start) * u

/-- `IntegerRange`: an inclusive interval of integers from which to
sample. -/
structure IntegerRange where
  start : ℤ
  stop : ℤ

/-- `IntegerRange.__init__`: after schema validation, swap `start` and
`stop` if they are the wrong way around. -/
def IntegerRange.init (a b : ℤ) : IntegerRange :=
  if a > b then ⟨b, a⟩ else ⟨a, b⟩

/-- The runtime integer-random primitive `np.random.randint(low, high)`:
returns an integer in the half-open range `[low, high)`.  Modelled as
`low + draw % (high - low)` for an arbitrary entropy draw; for
`high > low` this ranges over exactly the integers of `[low, high)`. -/
def randint (low high : ℤ) (draw : ℕ) : ℤ :=
  low + (draw : ℤ) % (high - low)

/-- `IntegerRange.gen_sample()`: `np.random.randint(low=start,
high=stop + 1)`. -/
def IntegerRange.gen_sample (ir : IntegerRange) (draw : ℕ) : ℤ :=
  randint ir.start (ir.stop + 1) draw

/-- `ComplexSector`: an annular sector in the complex plane, owning two
`RealInterval`s over modulus and argument. -/
structure ComplexSector where
  modulus : RealInterval
  argument : RealInterval

/-- `ComplexSector.__init__`: build the two `RealInterval`s from the
configured `modulus` and `argument` ranges. -/
noncomputable def ComplexSector.init (m₀ m₁ a₀ a₁ : ℝ) : ComplexSector :=
  ⟨RealInterval.init m₀ m₁, RealInterval.init a₀ a₁⟩

/-- `ComplexSector.gen_sample()`:
`self.modulus.gen_sample() * np.exp(1j * self.argument.gen_sample())`,
with the two draws `u` (for modulus) and `v` (for argument) taken
independently from the random source. -/
noncomputable def ComplexSector.gen_sample (cs : ComplexSector) (u v : ℝ) : ℂ :=
  ((cs.modulus.gen_sample u : ℝ) : ℂ) *
    Complex.exp (Complex.I * ((cs.argument.gen_sample v : ℝ) : ℂ))

/-! ### RandomFunction -/

/-- `RandomFunction`'s validated configuration. -/
structure RandomFunction where
  input_dim : ℕ
  output_dim : ℕ
  num_terms : ℕ
  center : ℝ
  amplitude : ℝ

/-- The value returned by a call to a generated random function: a bare
scalar when `output_dim == 1`, otherwise a vector. -/
inductive RFValue where
  | scalar (x : ℝ)
  | vec (xs : List ℝ)

/-- The message `"Expected {} arguments, but received {}"` built inside
the closure `f` when the arity check fails. -/
def expected_received_message (expected received : ℕ) : String :=
  s!"Expected {expected} arguments, but received {received}"

/-- The closure `f` built inside `RandomFunction.gen_sample()`, with the
coefficient tensors `A`, `B`, `C` (drawn at sample-generation time)
captured as parameters.  Mirrors the body of `f`: the arity check, the
output tensor `A * sin(B * xarray + C)` with `xarray i j k = x_k`, the
sum over axis 2 then axis 1, the scaling by `amplitude / num_terms`, the
translation by `center`, and the scalar extraction for
`output_dim == 1`. -/
noncomputable def RandomFunction.f (cfg : RandomFunction) (A B C : ℕ → ℕ → ℕ → ℝ)
    (args : List ℝ) : Except String RFValue :=
  if args.length ≠ cfg.input_dim then
    .error (expected_received_message cfg.input_dim args.length)
  else
    let output : ℕ → ℕ → ℕ → ℝ := fun i j k =>
      A i j k * Real.sin (B i j k * args.getD k 0 + C i j k)
    let sum_axis2 : ℕ → ℕ → ℝ := fun i j =>
      ∑ k ∈ Finset.range cfg.input_dim, output i j k
    let fullsum0 : ℕ → ℝ := fun i =>
      ∑ j ∈ Finset.range cfg.num_terms, sum_axis2 i j
    let fullsum : ℕ → ℝ := fun i =>
      fullsum0 i * cfg.amplitude / (cfg.num_terms : ℝ) + cfg.center
    if cfg.output_dim > 1 then
      .ok (.vec (List.ofFn fun i : Fin cfg.output_dim => fullsum i))
    else
      .ok (.scalar (fullsum 0))

/-- `RandomFunction.gen_sample()`: draws the tensors `A`, `B`, `C` (here
received as the draw arguments) and returns the closure `f`; performs no
check of its own. -/
noncomputable def RandomFunction.gen_sample (cfg : RandomFunction)
    (A B C : ℕ → ℕ → ℕ → ℝ) : List ℝ → Except String RFValue :=
  RandomFunction.f cfg A B C

/-- The per-component closed form stated by the spec:
`f(x)_i = center + (amplitude / num_terms) · Σ_j Σ_k
A[i,j,k] · sin(B[i,j,k]·x_k + C[i,j,k])`.  Stated from the spec's words,
to be compared with the value computed by `RandomFunction.f`. -/
noncomputable def RandomFunction.spec_component (cfg : RandomFunction)
    (A B C : ℕ → ℕ → ℕ → ℝ) (args : List ℝ) (i : ℕ) : ℝ :=
  cfg.center + cfg.amplitude / (cfg.num_terms : ℝ) *
    ∑ j ∈ Finset.range cfg.num_terms, ∑ k ∈ Finset.range cfg.input_dim,
      A i j k * Real.sin (B i j k * args.getD k 0 + C i j k)

/-- A concrete `RandomFunction` configuration used in closed examples. -/
def sample_rf_config : RandomFunction :=
  { input_dim := 2, output_dim := 1, num_terms := 3, center := 0, amplitude := 10 }

/-- A concrete all-zero coefficient tensor used in closed examples. -/
def zero_tensor : ℕ → ℕ → ℕ → ℝ :=
  fun _ _ _ => 0

end Graders

/-! ## Theorems about the domain validation wrapper -/

namespace MitxGraders

/-- Claim C1, counterexample: for the wrapper built with the single
shape spec `[1]` (scalar), a call with the degenerate one-component
array `MathArray ⟨[1], [5]⟩` succeeds, but the wrapped function (here
`first_arg`, which returns the value it received) receives the ORIGINAL
array, not the scalar validator's unwrapped result `5` — even though the
scalar validator itself does unwrap it to `5`. -/
theorem C1_counterexample :
    call_wrapped [[1]] "f" first_arg [.matharray ⟨[1], [5]⟩] =
        .ok (.matharray ⟨[1], [5]⟩) ∧
      PyObj.matharray ⟨[1], [5]⟩ ≠ PyObj.num 5 ∧
      number_validator (.matharray ⟨[1], [5]⟩) = .ok (.num 5) := by
  refine ⟨by decide, by decide, by decide⟩

/-- Claim C1 (amended): for the wrapper built with the single shape spec
`[1]` (scalar), a call with a plain number and a call with a
degenerate one-component array both succeed; the scalar validator
unwraps the array to a bare number internally, but its result is
discarded and the wrapped function is invoked with the original
argument: it receives the bare number in the plain-number case and the
original array in the array case. -/
theorem C1_scalar_shape_accepts_and_delegates_originals
    (x : ℚ) (a : MathArray) (name : String) (func : List PyObj → PyObj)
    (h : is_scalar_matharray a = true) :
    call_wrapped [[1]] name func [.num x] = .ok (func [.num x]) ∧
      call_wrapped [[1]] name func [.matharray a] = .ok (func [.matharray a]) ∧
      number_validator (.num x) = .ok (.num x) ∧
      number_validator (.matharray a) = .ok (.num a.item) := by
  refine ⟨?_, ?_, rfl, ?_⟩
  · simp [call_wrapped, validation_errors, has_shape, number_validator]
  · simp [call_wrapped, validation_errors, has_shape, number_validator, h]
  · simp [number_validator, h]

/-- Witness for C1's amended theorem at `x = 5`,
`a = MathArray ⟨[1], [5]⟩`, `func = first_arg`. -/
theorem C1_witness :
    is_scalar_matharray ⟨[1], [5]⟩ = true ∧
      (call_wrapped [[1]] "f" first_arg [.num 5] = .ok (first_arg [.num 5]) ∧
        call_wrapped [[1]] "f" first_arg [.matharray ⟨[1], [5]⟩] =
          .ok (first_arg [.matharray ⟨[1], [5]⟩]) ∧
        number_validator (.num 5) = .ok (.num 5) ∧
        number_validator (.matharray ⟨[1], [5]⟩) = .ok (.num (MathArray.item ⟨[1], [5]⟩))) :=
  ⟨by decide,
    C1_scalar_shape_accepts_and_delegates_originals 5 ⟨[1], [5]⟩ "f" first_arg (by decide)⟩

/-- Claim C3: if the number of call arguments differs from the number of
declared shapes, the wrapper raises the single-line arity error naming
the function, the expected count, and the received count; and the check
short-circuits: the outcome is the same for every wrapped function and
every argument list of that length, so no per-argument validation can
have taken place. -/
theorem C3_arity_check_short_circuits
    (shapes : List (List ℕ)) (name : String) (func : List PyObj → PyObj)
    (args : List PyObj) (h : shapes.length ≠ args.length) :
    call_wrapped shapes name func args =
        .error ⟨arity_message name shapes.length args.length⟩ ∧
      ∀ (func₂ : List PyObj → PyObj) (args₂ : List PyObj),
        args₂.length = args.length →
        call_wrapped shapes name func₂ args₂ =
          .error ⟨arity_message name shapes.length args.length⟩ := by
  constructor
  · simp [call_wrapped, h]
  · intro func₂ args₂ hlen
    simp [call_wrapped, hlen, h]

/-- Witness for C3 with `wrap(shapes=[3,3])` called with one argument:
the message states "expected 2 inputs, but received 1." -/
theorem C3_witness :
    ([[3], [3]] : List (List ℕ)).length ≠ ([PyObj.num 1] : List PyObj).length ∧
      call_wrapped [[3], [3]] "cross" first_arg [.num 1] =
        .error ⟨"There was an error evaluating function cross(...): expected 2 inputs, but received 1."⟩ := by
  refine ⟨by decide, ?_⟩
  rw [(C3_arity_check_short_circuits [[3], [3]] "cross" first_arg [.num 1] (by decide)).1]
  decide

/-- Claim C10: the normalized shape `(1,)` is always checked by the
scalar validator (`has_shape` returns `number_validator` for it), which
accepts plain numbers unchanged and unwraps degenerate one-component
arrays; every other declared shape accepts exactly the `MathArray`s
whose shape equals the declared tuple; and consequently no declared
shape accepts exactly the length-1 arrays (shape `(1,)` also accepts
plain numbers, and every other shape rejects length-1 arrays). -/
theorem C10_scalar_tag_never_requires_length_one_array :
    (∀ obj, has_shape [1] obj = number_validator obj) ∧
      (∀ x : ℚ, has_shape [1] (.num x) = .ok (.num x)) ∧
      (∀ a : MathArray, is_scalar_matharray a = true →
        has_shape [1] (.matharray a) = .ok (.num a.item)) ∧
      (∀ shape : List ℕ, shape ≠ [1] → ∀ obj,
        (∃ v, has_shape shape obj = .ok v) ↔
          (∃ a : MathArray, obj = .matharray a ∧ a.shape = shape)) ∧
      (∀ shape : List ℕ,
        ¬ (∀ obj, (∃ v, has_shape shape obj = .ok v) ↔
            (∃ a : MathArray, obj = .matharray a ∧ a.shape = [1]))) := by
  refine ⟨fun obj => by simp [has_shape], fun x => rfl, ?_, ?_, ?_⟩
  · intro a ha
    simp [has_shape, number_validator, ha]
  · intro shape hshape obj
    constructor
    · intro ⟨v, hv⟩
      match obj with
      | .num x => simp [has_shape, hshape, make_shape_validator] at hv
      | .other c => simp [has_shape, hshape, make_shape_validator] at hv
      | .matharray a =>
          refine ⟨a, rfl, ?_⟩
          by_contra hne
          simp [has_shape, hshape, make_shape_validator, hne] at hv
    · intro ⟨a, hobj, hsh⟩
      subst hobj
      exact ⟨.matharray a, by simp [has_shape, hshape, make_shape_validator, hsh]⟩
  · intro shape hall
    by_cases h1 : shape = [1]
    · subst h1
      have := (hall (.num 0)).mp ⟨.num 0, rfl⟩
      obtain ⟨a, ha, -⟩ := this
      exact absurd ha (by simp)
    · have := (hall (.matharray ⟨[1], [0]⟩)).mpr ⟨⟨[1], [0]⟩, rfl, rfl⟩
      obtain ⟨v, hv⟩ := this
      simp [has_shape, h1, make_shape_validator, Ne.symm h1] at hv

/-- The validation outcome of a single argument, as an optional error
message: what `validation_errors` records per argument. -/
def arg_outcome (shape : List ℕ) (arg : PyObj) : Option String :=
  match has_shape shape arg with
  | .ok _ => none
  | .error e => some e

lemma validation_errors_length (shapes : List (List ℕ)) (args : List PyObj)
    (h : shapes.length = args.length) :
    (validation_errors shapes args).length = args.length := by
  simp [validation_errors, h]

lemma validation_errors_getD (shapes : List (List ℕ)) (args : List PyObj)
    (i : ℕ) (h1 : i < shapes.length) (h2 : i < args.length) :
    (validation_errors shapes args).getD i none =
      arg_outcome (shapes.getD i []) (args.getD i (.num 0)) := by
  have hz : i < (shapes.zip args).length := by
    simp only [List.length_zip]
    omega
  have hm : i < (validation_errors shapes args).length := by
    simpa [validation_errors] using hz
  rw [List.getD_eq_getElem _ _ hm, List.getD_eq_getElem _ _ h1,
    List.getD_eq_getElem _ _ h2]
  simp [validation_errors, arg_outcome, List.getElem_zip]

lemma report_arg_lines_length (shapes : List (List ℕ))
    (errors : List (Option String)) (h : shapes.length = errors.length) :
    (report_arg_lines shapes errors).length = shapes.length := by
  simp [report_arg_lines, h]

lemma report_arg_lines_getD (shapes : List (List ℕ))
    (errors : List (Option String)) (i : ℕ)
    (h1 : i < shapes.length) (h2 : i < errors.length) :
    (report_arg_lines shapes errors).getD i "" =
      report_line i (shapes.getD i []) (errors.getD i none) := by
  have hz : i < (shapes.zip errors).length := by
    simp only [List.length_zip]
    omega
  have he : i < (shapes.zip errors).enum.length := by simpa using hz
  have hm : i < (report_arg_lines shapes errors).length := by
    simpa [report_arg_lines] using hz
  rw [List.getD_eq_getElem _ _ hm, List.getD_eq_getElem _ _ h1,
    List.getD_eq_getElem _ _ h2]
  simp [report_arg_lines, List.getElem_enum, List.getElem_zip]

/-- Claim C2: for a wrapped call with the declared number of arguments
in which at least one argument fails its shape check, a single domain
error is raised carrying the aggregated report; the report is the
header naming the function followed by one line per argument (joined by
`"\n\t"`); there is exactly one line per argument; and the line for
argument `i` is determined by that argument's own shape spec and value
alone (`report_line i` applied to the outcome of `has_shape` on that
pair), so every argument is validated independently of the others'
outcomes. -/
theorem C2_complete_independent_report
    (shapes : List (List ℕ)) (name : String) (func : List PyObj → PyObj)
    (args : List PyObj)
    (hlen : shapes.length = args.length)
    (hfail : (validation_errors shapes args).all (· = none) = false) :
    call_wrapped shapes name func args =
        .error ⟨report_message name shapes (validation_errors shapes args)⟩ ∧
      report_message name shapes (validation_errors shapes args) =
        String.intercalate "\n\t"
          (header_line name ::
            report_arg_lines shapes (validation_errors shapes args)) ∧
      (report_arg_lines shapes (validation_errors shapes args)).length =
        args.length ∧
      ∀ i, i < args.length →
        (report_arg_lines shapes (validation_errors shapes args)).getD i "" =
          report_line i (shapes.getD i [])
            (arg_outcome (shapes.getD i []) (args.getD i (.num 0))) := by
  have herrlen : (validation_errors shapes args).length = args.length :=
    validation_errors_length shapes args hlen
  refine ⟨?_, rfl, ?_, ?_⟩
  · simp [call_wrapped, hlen, hfail]
  · rw [report_arg_lines_length shapes _ (by omega), hlen]
  · intro i hi
    rw [report_arg_lines_getD shapes _ i (by omega) (by omega),
      validation_errors_getD shapes args i (by omega) hi]

set_option maxRecDepth 4000 in
/-- Witness for C2 at `wrap(shapes=[3,3])` called with a length-3 and a
length-2 vector: the single domain error's report lists both arguments,
and the line for the 2nd input states exactly
"2nd input has an error: received a vector of length 2, expected a
vector of length 3". -/
theorem C2_witness :
    ([[3], [3]] : List (List ℕ)).length =
        ([.matharray ⟨[3], [1, 2, 3]⟩, .matharray ⟨[2], [1, 2]⟩] : List PyObj).length ∧
      (validation_errors [[3], [3]]
          [.matharray ⟨[3], [1, 2, 3]⟩, .matharray ⟨[2], [1, 2]⟩]).all (· = none) = false ∧
      call_wrapped [[3], [3]] "cross" first_arg
          [.matharray ⟨[3], [1, 2, 3]⟩, .matharray ⟨[2], [1, 2]⟩] =
        .error ⟨"There was an error evaluating function cross(...)\n\t1st input is ok: received a vector of length 3 as expected\n\t2nd input has an error: received a vector of length 2, expected a vector of length 3"⟩ := by
  refine ⟨by decide, by decide, ?_⟩
  rw [(C2_complete_independent_report [[3], [3]] "cross" first_arg
    [.matharray ⟨[3], [1, 2, 3]⟩, .matharray ⟨[2], [1, 2]⟩]
    (by decide) (by decide)).1]
  decide

/-- Witness for C10: the scalar-tag validator unwraps the concrete
one-component array `MathArray ⟨[1], [7]⟩`. -/
theorem C10_witness :
    is_scalar_matharray ⟨[1], [7]⟩ = true ∧
      has_shape [1] (.matharray ⟨[1], [7]⟩) = .ok (.num (MathArray.item ⟨[1], [7]⟩)) :=
  ⟨by decide,
    C10_scalar_tag_never_requires_length_one_array.2.2.1 ⟨[1], [7]⟩ (by decide)⟩

end MitxGraders

/-! ## Theorems about the sampling sets -/

namespace Graders

lemma realInterval_init_start (a b : ℝ) : (RealInterval.init a b).start = min a b := by
  rw [RealInterval.init]
  rcases le_or_lt a b with h | h
  · rw [if_neg (not_lt.mpr h), min_eq_left h]
  · rw [if_pos h, min_eq_right h.le]

lemma realInterval_init_stop (a b : ℝ) : (RealInterval.init a b).stop = max a b := by
  rw [RealInterval.init]
  rcases le_or_lt a b with h | h
  · rw [if_neg (not_lt.mpr h), max_eq_right h]
  · rw [if_pos h, max_eq_left h.le]

lemma realInterval_init_gen_sample_mem (a b u : ℝ) (h0 : 0 ≤ u) (h1 : u < 1) :
    (RealInterval.init a b).gen_sample u ∈ Set.Icc (min a b) (max a b) := by
  rw [RealInterval.gen_sample, realInterval_init_start, realInterval_init_stop]
  have hmm : min a b ≤ max a b := min_le_max
  constructor
  · nlinarith [mul_nonneg (sub_nonneg.mpr hmm) h0]
  · nlinarith [mul_le_of_le_one_right (sub_nonneg.mpr hmm) h1.le]

/-- Claim C5: `RealInterval` built from bounds `a`, `b` in any order
satisfies the invariant `start ≤ stop` (the constructor swaps
out-of-order bounds), and every sample — `start + (stop - start) * u`
for a draw `u ∈ [0,1)` of the uniform primitive — lies in
`[min(a,b), max(a,b)]`. -/
theorem C5_real_interval_bounds (a b u : ℝ) (h0 : 0 ≤ u) (h1 : u < 1) :
    (RealInterval.init a b).start ≤ (RealInterval.init a b).stop ∧
      (RealInterval.init a b).gen_sample u ∈ Set.Icc (min a b) (max a b) := by
  constructor
  · rw [realInterval_init_start, realInterval_init_stop]
    exact min_le_max
  · exact realInterval_init_gen_sample_mem a b u h0 h1

/-- Witness for C5 with the out-of-order bounds `(4, -2)` and the draw
`u = 1/2`. -/
theorem C5_witness :
    (0 : ℝ) ≤ 1 / 2 ∧ (1 / 2 : ℝ) < 1 ∧
      ((RealInterval.init 4 (-2)).start ≤ (RealInterval.init 4 (-2)).stop ∧
        (RealInterval.init 4 (-2)).gen_sample (1 / 2) ∈
          Set.Icc (min (4 : ℝ) (-2)) (max 4 (-2))) :=
  ⟨by norm_num, by norm_num, C5_real_interval_bounds 4 (-2) (1 / 2) (by norm_num) (by norm_num)⟩

lemma integerRange_init_start (a b : ℤ) : (IntegerRange.init a b).start = min a b := by
  rw [IntegerRange.init]
  rcases le_or_lt a b with h | h
  · rw [if_neg (not_lt.mpr h), min_eq_left h]
  · rw [if_pos h, min_eq_right h.le]

lemma integerRange_init_stop (a b : ℤ) : (IntegerRange.init a b).stop = max a b := by
  rw [IntegerRange.init]
  rcases le_or_lt a b with h | h
  · rw [if_neg (not_lt.mpr h), max_eq_right h]
  · rw [if_pos h, max_eq_left h.le]

/-- Claim C6: every sample of `IntegerRange` built from bounds `a`, `b`
— `randint(start, stop + 1)` on a draw — is an integer in the closed
range `[min(a,b), max(a,b)]`, both endpoints included, and every
integer of that closed range is reachable by some draw of the random
primitive. -/
theorem C6_integer_range_inclusive_and_reachable (a b : ℤ) (draw : ℕ) :
    (IntegerRange.init a b).gen_sample draw ∈ Set.Icc (min a b) (max a b) ∧
      ∀ n : ℤ, n ∈ Set.Icc (min a b) (max a b) →
        ∃ d : ℕ, (IntegerRange.init a b).gen_sample d = n := by
  have hmm : min a b ≤ max a b := min_le_max
  constructor
  · rw [IntegerRange.gen_sample, randint, integerRange_init_start, integerRange_init_stop]
    have hpos : (0 : ℤ) < max a b + 1 - min a b := by omega
    have hnn : 0 ≤ (draw : ℤ) % (max a b + 1 - min a b) :=
      Int.emod_nonneg _ (ne_of_gt hpos)
    have hlt : (draw : ℤ) % (max a b + 1 - min a b) < max a b + 1 - min a b :=
      Int.emod_lt_of_pos _ hpos
    constructor <;> omega
  · intro n hn
    rw [Set.mem_Icc] at hn
    refine ⟨(n - min a b).toNat, ?_⟩
    rw [IntegerRange.gen_sample, randint, integerRange_init_start, integerRange_init_stop]
    have hcast : ((n - min a b).toNat : ℤ) = n - min a b :=
      Int.toNat_of_nonneg (by omega)
    rw [hcast, Int.emod_eq_of_lt (by omega) (by omega)]
    omega

/-- Witness for C6 with the out-of-order bounds `(5, 2)`, the draw `7`,
and reachability of the interior integer `3`. -/
theorem C6_witness :
    (IntegerRange.init 5 2).gen_sample 7 ∈ Set.Icc (min (5 : ℤ) 2) (max 5 2) ∧
      (3 : ℤ) ∈ Set.Icc (min (5 : ℤ) 2) (max 5 2) ∧
      ∃ d : ℕ, (IntegerRange.init 5 2).gen_sample d = 3 :=
  ⟨(C6_integer_range_inclusive_and_reachable 5 2 7).1,
    by simp [Set.mem_Icc],
    (C6_integer_range_inclusive_and_reachable 5 2 7).2 3 (by simp [Set.mem_Icc])⟩

lemma abs_exp_I_mul (θ : ℝ) : Complex.abs (Complex.exp (Complex.I * (θ : ℂ))) = 1 := by
  rw [mul_comm]
  exact Complex.abs_exp_ofReal_mul_I θ

/-- Claim C9: `ComplexSector.gen_sample()` returns
`modulus.gen_sample() * exp(i * argument.gen_sample())` with the two
draws taken independently, and for
`ComplexSector(modulus=[0,1], argument=[-π,π])` every sample has
magnitude in `[0,1]` and is `|z| · exp(i·θ)` for an angle
`θ ∈ [-π, π]`. -/
theorem C9_complex_sector (u v : ℝ) (hu0 : 0 ≤ u) (hu1 : u < 1)
    (hv0 : 0 ≤ v) (hv1 : v < 1) :
    (∀ cs : ComplexSector, cs.gen_sample u v =
        ((cs.modulus.gen_sample u : ℝ) : ℂ) *
          Complex.exp (Complex.I * ((cs.argument.gen_sample v : ℝ) : ℂ))) ∧
      Complex.abs ((ComplexSector.init 0 1 (-Real.pi) Real.pi).gen_sample u v) ∈
        Set.Icc (0 : ℝ) 1 ∧
      ∃ θ ∈ Set.Icc (-Real.pi) Real.pi,
        (ComplexSector.init 0 1 (-Real.pi) Real.pi).gen_sample u v =
          ((Complex.abs
              ((ComplexSector.init 0 1 (-Real.pi) Real.pi).gen_sample u v) : ℝ) : ℂ) *
            Complex.exp (Complex.I * (θ : ℂ)) := by
  set m : ℝ := (ComplexSector.init 0 1 (-Real.pi) Real.pi).modulus.gen_sample u with hm
  set θ : ℝ := (ComplexSector.init 0 1 (-Real.pi) Real.pi).argument.gen_sample v with hθ
  have hmem_m : m ∈ Set.Icc (min (0 : ℝ) 1) (max 0 1) :=
    realInterval_init_gen_sample_mem 0 1 u hu0 hu1
  have hmem_θ : θ ∈ Set.Icc (min (-Real.pi) Real.pi) (max (-Real.pi) Real.pi) :=
    realInterval_init_gen_sample_mem (-Real.pi) Real.pi v hv0 hv1
  have hpi : -Real.pi ≤ Real.pi := by
    have := Real.pi_nonneg
    linarith
  rw [min_eq_left (by norm_num), max_eq_right (by norm_num)] at hmem_m
  rw [min_eq_left hpi, max_eq_right hpi] at hmem_θ
  have habs : Complex.abs ((ComplexSector.init 0 1 (-Real.pi) Real.pi).gen_sample u v) = m := by
    rw [ComplexSector.gen_sample, map_mul, abs_exp_I_mul, mul_one,
      Complex.abs_ofReal, abs_of_nonneg hmem_m.1]
  refine ⟨fun cs => rfl, ?_, ⟨θ, hmem_θ, ?_⟩⟩
  · rw [habs]
    exact ⟨hmem_m.1, hmem_m.2⟩
  · rw [habs]
    rfl

/-- Witness for C9 at the draws `u = v = 1/2`. -/
theorem C9_witness :
    (0 : ℝ) ≤ 1 / 2 ∧ (1 / 2 : ℝ) < 1 ∧
      ((∀ cs : ComplexSector, cs.gen_sample (1 / 2) (1 / 2) =
          ((cs.modulus.gen_sample (1 / 2) : ℝ) : ℂ) *
            Complex.exp (Complex.I * ((cs.argument.gen_sample (1 / 2) : ℝ) : ℂ))) ∧
        Complex.abs ((ComplexSector.init 0 1 (-Real.pi) Real.pi).gen_sample (1 / 2) (1 / 2)) ∈
          Set.Icc (0 : ℝ) 1 ∧
        ∃ θ ∈ Set.Icc (-Real.pi) Real.pi,
          (ComplexSector.init 0 1 (-Real.pi) Real.pi).gen_sample (1 / 2) (1 / 2) =
            ((Complex.abs
                ((ComplexSector.init 0 1 (-Real.pi) Real.pi).gen_sample (1 / 2) (1 / 2)) : ℝ) : ℂ) *
              Complex.exp (Complex.I * (θ : ℂ))) :=
  ⟨by norm_num, by norm_num,
    C9_complex_sector (1 / 2) (1 / 2) (by norm_num) (by norm_num) (by norm_num) (by norm_num)⟩

/-- Claim C4: a callable produced by `RandomFunction.gen_sample()`,
applied to `input_dim` arguments, computes component `i` as
`center + (amplitude / num_terms) · Σ_j Σ_k A[i,j,k] ·
sin(B[i,j,k]·x_k + C[i,j,k])` (the spec's closed form,
`spec_component`), and returns a bare scalar when `output_dim = 1` and
a vector of the `output_dim` components otherwise. -/
theorem C4_random_function_formula (cfg : RandomFunction)
    (A B C : ℕ → ℕ → ℕ → ℝ) (args : List ℝ)
    (hlen : args.length = cfg.input_dim) :
    (cfg.output_dim = 1 →
        RandomFunction.gen_sample cfg A B C args =
          .ok (.scalar (RandomFunction.spec_component cfg A B C args 0))) ∧
      (1 < cfg.output_dim →
        RandomFunction.gen_sample cfg A B C args =
          .ok (.vec (List.ofFn fun i : Fin cfg.output_dim =>
            RandomFunction.spec_component cfg A B C args i))) := by
  have hcond : ¬ (args.length ≠ cfg.input_dim) := not_not_intro hlen
  constructor
  · intro h1
    rw [RandomFunction.gen_sample, RandomFunction.f, if_neg hcond]
    dsimp only
    rw [if_neg (by omega)]
    congr 2
    rw [RandomFunction.spec_component]
    ring
  · intro h2
    rw [RandomFunction.gen_sample, RandomFunction.f, if_neg hcond]
    dsimp only
    rw [if_pos h2]
    have hfun : ∀ i : ℕ,
        (∑ j ∈ Finset.range cfg.num_terms, ∑ k ∈ Finset.range cfg.input_dim,
            A i j k * Real.sin (B i j k * args.getD k 0 + C i j k)) *
            cfg.amplitude / (cfg.num_terms : ℝ) + cfg.center =
          RandomFunction.spec_component cfg A B C args i := by
      intro i
      rw [RandomFunction.spec_component]
      ring
    simp only [hfun]

/-- Witness for C4 at `sample_rf_config` (`input_dim = 2`,
`output_dim = 1`), the zero coefficient tensors, and the argument list
`[0, 0]`. -/
theorem C4_witness :
    ([0, 0] : List ℝ).length = sample_rf_config.input_dim ∧
      sample_rf_config.output_dim = 1 ∧
      RandomFunction.gen_sample sample_rf_config zero_tensor zero_tensor zero_tensor [0, 0] =
        .ok (.scalar (RandomFunction.spec_component sample_rf_config
          zero_tensor zero_tensor zero_tensor [0, 0] 0)) :=
  ⟨rfl, rfl,
    (C4_random_function_formula sample_rf_config zero_tensor zero_tensor zero_tensor
      [0, 0] rfl).1 rfl⟩

/-- Claim C7: `gen_sample()` returns the closure unconditionally
(`gen_sample = f`, so it never raises for arity); the arity check lives
inside the callable and fires on every invocation with the wrong number
of arguments, raising the configuration error naming the expected and
received counts; with the right number of arguments the callable
succeeds. -/
theorem C7_arity_checked_inside_callable (cfg : RandomFunction)
    (A B C : ℕ → ℕ → ℕ → ℝ) (args : List ℝ) :
    RandomFunction.gen_sample cfg A B C = RandomFunction.f cfg A B C ∧
      (args.length ≠ cfg.input_dim →
        RandomFunction.gen_sample cfg A B C args =
          .error (expected_received_message cfg.input_dim args.length)) ∧
      (args.length = cfg.input_dim →
        ∃ v, RandomFunction.gen_sample cfg A B C args = .ok v) := by
  refine ⟨rfl, ?_, ?_⟩
  · intro h
    rw [RandomFunction.gen_sample, RandomFunction.f, if_pos h]
  · intro h
    rw [RandomFunction.gen_sample, RandomFunction.f, if_neg (not_not_intro h)]
    dsimp only
    split
    · exact ⟨_, rfl⟩
    · exact ⟨_, rfl⟩

/-- Witness for C7: calling the `input_dim = 2` sample with one
argument produces exactly "Expected 2 arguments, but received 1". -/
theorem C7_witness :
    ([0] : List ℝ).length ≠ sample_rf_config.input_dim ∧
      RandomFunction.gen_sample sample_rf_config zero_tensor zero_tensor zero_tensor [0] =
        .error (expected_received_message sample_rf_config.input_dim ([0] : List ℝ).length) ∧
      expected_received_message sample_rf_config.input_dim ([0] : List ℝ).length =
        "Expected 2 arguments, but received 1" :=
  ⟨by decide,
    (C7_arity_checked_inside_callable sample_rf_config zero_tensor zero_tensor zero_tensor
      [0]).2.1 (by decide),
    by decide⟩

/-- Claim C8: a fixed callable produced by `gen_sample()` is
deterministic — its coefficient tensors are fixed at sample-generation
time and it consumes no further randomness, so two calls with the same
input vector return identical output. -/
theorem C8_generated_callable_deterministic (cfg : RandomFunction)
    (A B C : ℕ → ℕ → ℕ → ℝ) (args₁ args₂ : List ℝ) (h : args₁ = args₂) :
    RandomFunction.gen_sample cfg A B C args₁ =
      RandomFunction.gen_sample cfg A B C args₂ := by
  rw [h]

/-- Witness for C8 at the input vector `[1, 2]`. -/
theorem C8_witness :
    ([1, 2] : List ℝ) = [1, 2] ∧
      RandomFunction.gen_sample sample_rf_config zero_tensor zero_tensor zero_tensor [1, 2] =
        RandomFunction.gen_sample sample_rf_config zero_tensor zero_tensor zero_tensor [1, 2] :=
  ⟨rfl,
    C8_generated_callable_deterministic sample_rf_config zero_tensor zero_tensor zero_tensor
      [1, 2] [1, 2] rfl⟩

end Graders
